import Mathlib

/-!
Verification of the vector/ray math layer of the RayTracer repository
(src/vector.h). The C++ template parameter `T` defaults to `double` at
every relevant call site; the embedding models the components with exact
rationals `ℚ`, so every algebraic claim is settled in exact arithmetic.
-/

namespace RayTracer

/-- `Vec3<T>` from src/vector.h (`T = double`), the three-argument
constructor `Vec3(T x, T y, T z)` being the structure constructor. -/
structure Vec3 where
  x : ℚ
  y : ℚ
  z : ℚ
deriving DecidableEq, Repr

/-- The zero-argument constructor `Vec3(): x(0.0), y(0.0), z(0.0)`. -/
def Vec3.mkDefault : Vec3 := ⟨0, 0, 0⟩

/-- The single-argument broadcast constructor
`Vec3(T value): x(value), y(value), z(value)`. -/
def Vec3.broadcast (value : ℚ) : Vec3 := ⟨value, value, value⟩

/-- Unary negation `operator-()`: `{-x, -y, -z}`. -/
def Vec3.neg (v : Vec3) : Vec3 := ⟨-v.x, -v.y, -v.z⟩

/-- Indexed read access `operator[](size_t i)`: the switch maps 0 to x,
1 to y, 2 to z, and the default case returns `T{}` (zero for double). -/
def Vec3.index (v : Vec3) : Nat → ℚ
  | 0 => v.x
  | 1 => v.y
  | 2 => v.z
  | _ => 0

/-- `operator==(T rhs)`: `x == rhs && y == rhs && z == rhs`. -/
def Vec3.eqScalar (v : Vec3) (rhs : ℚ) : Bool :=
  decide (v.x = rhs) && decide (v.y = rhs) && decide (v.z = rhs)

/-- `operator<=(T rhs)`: `x <= rhs && y <= rhs && z <= rhs`. -/
def Vec3.leScalar (v : Vec3) (rhs : ℚ) : Bool :=
  decide (v.x ≤ rhs) && decide (v.y ≤ rhs) && decide (v.z ≤ rhs)

/-- `sum()`: `x + y + z`. -/
def Vec3.sum (v : Vec3) : ℚ := v.x + v.y + v.z

/-- `squared_length()`: `x*x + y*y + z*z`. -/
def Vec3.squared_length (v : Vec3) : ℚ := v.x * v.x + v.y * v.y + v.z * v.z

/-- `operator*(const Vec3<T> &v, double r)`: `{v.x * r, v.y * r, v.z * r}`. -/
def Vec3.mulScalar (v : Vec3) (r : ℚ) : Vec3 := ⟨v.x * r, v.y * r, v.z * r⟩

/-- `operator*(double l, const Vec3<T>& v)`: `{v.x * l, v.y * l, v.z * l}`. -/
def Vec3.scalarMul (l : ℚ) (v : Vec3) : Vec3 := ⟨v.x * l, v.y * l, v.z * l⟩

/-- `operator*(const Vec3<T>& l, const Vec3<T>& r)`:
`{l.x * r.x, l.y * r.y, l.z * r.z}` (componentwise product). -/
def Vec3.hmul (l r : Vec3) : Vec3 := ⟨l.x * r.x, l.y * r.y, l.z * r.z⟩

/-- `operator+(const Vec3<T>& l, const Vec3<T>& r)`: componentwise sum. -/
def Vec3.add (l r : Vec3) : Vec3 := ⟨l.x + r.x, l.y + r.y, l.z + r.z⟩

/-- `operator-(const Vec3<T>& l, const Vec3<T>& r)`: componentwise difference. -/
def Vec3.sub (l r : Vec3) : Vec3 := ⟨l.x - r.x, l.y - r.y, l.z - r.z⟩

/-- `dot(const Vec3<T>& l, const Vec3<T>& r)`:
`l.x * r.x + l.y * r.y + l.z * r.z`. -/
def dot (l r : Vec3) : ℚ := l.x * r.x + l.y * r.y + l.z * r.z

/-- `cross(const Vec3<T>& l, const Vec3<T>& r)`:
`{l.y*r.z - l.z*r.y, -(l.x*r.z - l.z*r.x), l.x*r.y - l.y*r.x}`. -/
def cross (l r : Vec3) : Vec3 :=
  ⟨l.y * r.z - l.z * r.y, -(l.x * r.z - l.z * r.x), l.x * r.y - l.y * r.x⟩

/-- `reflect(const Vec3<>& v, const Vec3<>& n)`: `v - 2*dot(v, n)*n`,
where `2*dot(v,n)` is a scalar multiplied onto `n` from the left. -/
def reflect (v n : Vec3) : Vec3 :=
  Vec3.sub v (Vec3.scalarMul (2 * dot v n) n)

/-- One candidate of the do-while loop in `random_in_unit_sphere`:
`p = 2.0 * Vec3<>{drand48(), drand48(), drand48()} - Vec3<>{1.0}`,
where the random source is modelled as a stream `s : Nat → ℚ` of values
in [0,1) consumed three at a time. -/
def candidate (s : Nat → ℚ) (k : Nat) : Vec3 :=
  Vec3.sub (Vec3.scalarMul 2 ⟨s (3 * k), s (3 * k + 1), s (3 * k + 2)⟩)
    (Vec3.broadcast 1)

/-- The do-while loop of `random_in_unit_sphere`, starting at trial `k`:
the candidate of trial `k` is returned unless `p.squared_length() >= 1.0`,
in which case the loop retries with the next triple of random values.
The C++ loop is unbounded; `fuel` bounds the recursion depth of the model
and `none` means the loop has not accepted within `fuel` trials. -/
def risLoop (s : Nat → ℚ) : Nat → Nat → Option Vec3
  | _, 0 => none
  | k, fuel + 1 =>
    if 1 ≤ (candidate s k).squared_length then risLoop s (k + 1) fuel
    else some (candidate s k)

/-- `random_in_unit_sphere()`: runs the rejection loop from the first triple
of the random stream. -/
def random_in_unit_sphere (s : Nat → ℚ) (fuel : Nat) : Option Vec3 :=
  risLoop s 0 fuel

/-- `struct Ray`, fields `A` (origin) and `B` (direction), with the
two-argument constructor `Ray(Vec3<> a, Vec3<> b): A(a), B(b)`. -/
structure Ray where
  A : Vec3
  B : Vec3
deriving DecidableEq, Repr

/-- `Ray() = default`: each `Vec3<>` member is default-constructed, which
runs `Vec3()` and zero-initialises every component. -/
def Ray.mkDefault : Ray := ⟨Vec3.mkDefault, Vec3.mkDefault⟩

/-- `Ray::operator()(double t)`: `A + t * B`. -/
def Ray.eval (r : Ray) (t : ℚ) : Vec3 := Vec3.add r.A (Vec3.scalarMul t r.B)

/-- `Ray::origin()`: returns `A`. -/
def Ray.origin (r : Ray) : Vec3 := r.A

/-- `Ray::direction()`: returns `B`. -/
def Ray.direction (r : Ray) : Vec3 := r.B

/-- C1: indexed read access returns x for 0, y for 1, z for 2, and the
type's default zero value for every other index, never failing; in
particular `Vec3(1,2,3)[0]==1`, `[1]==2`, `[2]==3`, `[3]==0`. -/
theorem vec3_index_spec (v : Vec3) (i : Nat) (hi : 3 ≤ i) :
    v.index 0 = v.x ∧ v.index 1 = v.y ∧ v.index 2 = v.z ∧ v.index i = 0 ∧
    (Vec3.mk 1 2 3).index 0 = 1 ∧ (Vec3.mk 1 2 3).index 1 = 2 ∧
    (Vec3.mk 1 2 3).index 2 = 3 ∧ (Vec3.mk 1 2 3).index 3 = 0 := by
  obtain ⟨n, rfl⟩ : ∃ n, i = n + 3 := ⟨i - 3, by omega⟩
  exact ⟨rfl, rfl, rfl, rfl, rfl, rfl, rfl, rfl⟩

/-- Witness for C1 at the concrete vector (5,6,7) and index 3. -/
theorem vec3_index_spec_witness :
    (Vec3.mk 5 6 7).index 0 = 5 ∧ (Vec3.mk 5 6 7).index 1 = 6 ∧
    (Vec3.mk 5 6 7).index 2 = 7 ∧ (Vec3.mk 5 6 7).index 3 = 0 ∧
    (Vec3.mk 1 2 3).index 0 = 1 ∧ (Vec3.mk 1 2 3).index 1 = 2 ∧
    (Vec3.mk 1 2 3).index 2 = 3 ∧ (Vec3.mk 1 2 3).index 3 = 0 :=
  vec3_index_spec ⟨5, 6, 7⟩ 3 (by decide)

/-- C2: `v == s` holds iff all three components equal s, and `v <= s`
holds iff all three components are ≤ s (a conjunction over all
components); `Vec3(2,2,2) <= 2` is true and `Vec3(2,3,2) <= 2` is false. -/
theorem vec3_scalar_cmp_spec (v : Vec3) (s : ℚ) :
    (v.eqScalar s = true ↔ v.x = s ∧ v.y = s ∧ v.z = s) ∧
    (v.leScalar s = true ↔ v.x ≤ s ∧ v.y ≤ s ∧ v.z ≤ s) ∧
    Vec3.leScalar ⟨2, 2, 2⟩ 2 = true ∧ Vec3.leScalar ⟨2, 3, 2⟩ 2 = false := by
  refine ⟨?_, ?_, by decide, by decide⟩ <;>
    simp [Vec3.eqScalar, Vec3.leScalar, and_assoc]

/-- Soundness of the rejection loop starting at trial `k`: a returned
point has squared length < 1 and is the first accepted candidate at or
after trial `k`; every earlier trial from `k` on was rejected by the
`squared_length() >= 1.0` test. -/
theorem risLoop_sound (s : Nat → ℚ) :
    ∀ fuel k p, risLoop s k fuel = some p →
      p.squared_length < 1 ∧
      ∃ m, k ≤ m ∧ p = candidate s m ∧
        ∀ j, k ≤ j → j < m → 1 ≤ (candidate s j).squared_length := by
  intro fuel
  induction fuel with
  | zero => intro k p h; simp [risLoop] at h
  | succ n ih =>
    intro k p h
    by_cases hc : 1 ≤ (candidate s k).squared_length
    · rw [risLoop, if_pos hc] at h
      obtain ⟨h1, m, hkm, hp, hrej⟩ := ih (k + 1) p h
      refine ⟨h1, m, by omega, hp, fun j hj1 hj2 => ?_⟩
      rcases Nat.eq_or_lt_of_le hj1 with rfl | hlt
      · exact hc
      · exact hrej j hlt hj2
    · rw [risLoop, if_neg hc] at h
      obtain rfl : candidate s k = p := by simpa using h
      exact ⟨not_le.mp hc, k, le_refl k, rfl, fun j hj1 hj2 => by omega⟩

/-- C3: with the uniform source modelled as a stream of values in [0,1),
`random_in_unit_sphere` maps consecutive triples to the candidate
`p = 2·(r1,r2,r3) − (1,1,1)` and returns the first candidate with
`squared_length() < 1`; consequently every returned value satisfies
`squared_length() < 1`. -/
theorem random_in_unit_sphere_spec (s : Nat → ℚ) (fuel : Nat) (p : Vec3)
    (h : random_in_unit_sphere s fuel = some p) :
    p.squared_length < 1 ∧
    ∃ k, p = candidate s k ∧
      ∀ j, j < k → 1 ≤ (candidate s j).squared_length := by
  obtain ⟨h1, m, _, hp, hrej⟩ := risLoop_sound s fuel 0 p h
  exact ⟨h1, m, hp, fun j hj => hrej j (Nat.zero_le j) hj⟩

/-- Witness for C3: the constant stream 1/4 is accepted at the first
trial with candidate (−1/2, −1/2, −1/2). -/
theorem random_in_unit_sphere_spec_witness :
    (Vec3.mk (-(1/2)) (-(1/2)) (-(1/2))).squared_length < 1 ∧
    ∃ k, Vec3.mk (-(1/2)) (-(1/2)) (-(1/2)) = candidate (fun _ => (1:ℚ)/4) k ∧
      ∀ j, j < k → 1 ≤ (candidate (fun _ => (1:ℚ)/4) j).squared_length :=
  random_in_unit_sphere_spec (fun _ => (1:ℚ)/4) 1 _ (by
    norm_num [random_in_unit_sphere, risLoop, candidate, Vec3.sub,
      Vec3.scalarMul, Vec3.broadcast, Vec3.squared_length])

/-- C4: for every vector v and unit vector n (dot(n,n) = 1),
`reflect(v,n)` equals `v − 2·dot(v,n)·n` and has the same squared length,
hence the same length, as v (exact arithmetic). -/
theorem reflect_spec (v n : Vec3) (h : dot n n = 1) :
    reflect v n = Vec3.sub v (Vec3.scalarMul (2 * dot v n) n) ∧
    (reflect v n).squared_length = v.squared_length ∧
    Real.sqrt ((reflect v n).squared_length : ℝ) =
      Real.sqrt ((v.squared_length : ℝ)) := by
  have h2 : (reflect v n).squared_length = v.squared_length := by
    simp only [reflect, Vec3.sub, Vec3.scalarMul, dot, Vec3.squared_length]
      at h ⊢
    linear_combination (4 * (v.x * n.x + v.y * n.y + v.z * n.z) ^ 2) * h
  exact ⟨rfl, h2, by rw [h2]⟩

/-- Witness for C4 at v = (1,2,3), n = (1,0,0). -/
theorem reflect_spec_witness :
    reflect ⟨1, 2, 3⟩ ⟨1, 0, 0⟩ =
      Vec3.sub ⟨1, 2, 3⟩
        (Vec3.scalarMul (2 * dot ⟨1, 2, 3⟩ ⟨1, 0, 0⟩) ⟨1, 0, 0⟩) ∧
    (reflect ⟨1, 2, 3⟩ ⟨1, 0, 0⟩).squared_length =
      (Vec3.mk 1 2 3).squared_length ∧
    Real.sqrt ((reflect ⟨1, 2, 3⟩ ⟨1, 0, 0⟩).squared_length : ℝ) =
      Real.sqrt (((Vec3.mk 1 2 3).squared_length : ℝ)) :=
  reflect_spec ⟨1, 2, 3⟩ ⟨1, 0, 0⟩ (by norm_num [dot])

/-- C5: `cross(l,r)` returns exactly
`(l.y·r.z − l.z·r.y, −(l.x·r.z − l.z·r.x), l.x·r.y − l.y·r.x)`, the
middle component negated exactly as written. -/
theorem cross_spec (l r : Vec3) :
    cross l r =
      ⟨l.y * r.z - l.z * r.y, -(l.x * r.z - l.z * r.x),
        l.x * r.y - l.y * r.x⟩ ∧
    (cross l r).y = -(l.x * r.z - l.z * r.x) :=
  ⟨rfl, rfl⟩

/-- C6: `l * r` is the componentwise (Hadamard) product, distinct from
`dot`; `Vector3(1,2,3) * Vector3(2,2,2) = (2,4,6)` while
`dot((1,2,3),(2,2,2)) = 12`. -/
theorem hmul_dot_spec (l r : Vec3) :
    Vec3.hmul l r = ⟨l.x * r.x, l.y * r.y, l.z * r.z⟩ ∧
    dot l r = l.x * r.x + l.y * r.y + l.z * r.z ∧
    Vec3.hmul ⟨1, 2, 3⟩ ⟨2, 2, 2⟩ = ⟨2, 4, 6⟩ ∧
    dot ⟨1, 2, 3⟩ ⟨2, 2, 2⟩ = 12 := by
  refine ⟨rfl, rfl, ?_, ?_⟩ <;> norm_num [Vec3.hmul, dot]

/-- C7: a Ray with origin A and direction B evaluates at any parameter t,
negative t included, to `A + t·B`; the ray from (0,0,0) along (1,0,0)
gives (0,0,0) at t=0, (5,0,0) at t=5 and (−2,0,0) at t=−2. -/
theorem ray_eval_spec (r : Ray) (t : ℚ) :
    r.eval t = Vec3.add r.A (Vec3.scalarMul t r.B) ∧
    (Ray.mk ⟨0, 0, 0⟩ ⟨1, 0, 0⟩).eval 0 = ⟨0, 0, 0⟩ ∧
    (Ray.mk ⟨0, 0, 0⟩ ⟨1, 0, 0⟩).eval 5 = ⟨5, 0, 0⟩ ∧
    (Ray.mk ⟨0, 0, 0⟩ ⟨1, 0, 0⟩).eval (-2) = ⟨-2, 0, 0⟩ := by
  refine ⟨rfl, ?_, ?_, ?_⟩ <;> norm_num [Ray.eval, Vec3.add, Vec3.scalarMul]

/-- C9: a default-constructed Ray has origin (0,0,0) and direction
(0,0,0), because the zero-argument Vec3 constructor zeroes every
component. -/
theorem ray_default_spec :
    Ray.mkDefault.A = ⟨0, 0, 0⟩ ∧ Ray.mkDefault.B = ⟨0, 0, 0⟩ ∧
    Vec3.mkDefault = ⟨0, 0, 0⟩ ∧
    Ray.mkDefault.origin = Vec3.mkDefault ∧
    Ray.mkDefault.direction = Vec3.mkDefault :=
  ⟨rfl, rfl, rfl, rfl, rfl⟩

/-- C10: `dot(v,v)` and `v.squared_length()` both compute
`x·x + y·y + z·z` and agree on every input. -/
theorem dot_self_spec (v : Vec3) :
    dot v v = v.squared_length ∧
    dot v v = v.x * v.x + v.y * v.y + v.z * v.z ∧
    v.squared_length = v.x * v.x + v.y * v.y + v.z * v.z :=
  ⟨rfl, rfl, rfl⟩

end RayTracer
